import Mathlib

/-!
Shallow embedding of the Kenya Law scraper service (src/main.py) and proofs
about its orchestration contract: domain validation, link discovery, the
exclusion filter, the crawl runner, the in-memory document cache, and the
chat responder. The two external collaborators (the Scrape Provider and the
Completion Provider) are modelled as oracles passed to each function, and
every handler additionally returns the ordered list of provider invocations
it made, so that "never calls the provider" claims become statements about
that list. Python string operations are modelled by structurally recursive
functions on character lists so that every definition evaluates inside the
kernel.
-/

namespace KenyaLaw

/-- Whether the first character list is an initial segment of the second;
models Python str.startswith once both are turned into character lists. -/
def initSeg : List Char → List Char → Bool
  | [], _ => true
  | _ :: _, [] => false
  | a :: s, b :: t => a == b && initSeg s t

/-- Whether the pattern occurs as a contiguous sublist; models the Python
substring test. An empty pattern occurs in every list. -/
def occurs (pat : List Char) : List Char → Bool
  | [] => initSeg pat []
  | c :: rest => initSeg pat (c :: rest) || occurs pat rest

/-- Split a character list at the first occurrence of the pattern: the part
before and the part after it, or none when the pattern does not occur. -/
def splitAtFirst (pat : List Char) : List Char → Option (List Char × List Char)
  | [] => if initSeg pat [] then some ([], []) else none
  | c :: rest =>
    if initSeg pat (c :: rest) then some ([], (c :: rest).drop pat.length)
    else
      match splitAtFirst pat rest with
      | none => none
      | some (pre, post) => some (c :: pre, post)

/-- Python s.startswith(t). -/
def strStartsWith (s t : String) : Bool := initSeg t.data s.data

/-- Python s.endswith(t). -/
def strEndsWith (s t : String) : Bool := initSeg t.data.reverse s.data.reverse

/-- Python t in s, substring containment. -/
def strContains (s t : String) : Bool := occurs t.data s.data

/-- Python s.lower(), character by character. -/
def strLower (s : String) : String := String.mk (s.data.map Char.toLower)

/-- The three characters separating a URL scheme from its authority. -/
def schemeSep : List Char := [':', '/', '/']

/-- Model of Python urlparse(url).netloc for URLs of the scheme://host shape
the service works with (its URLs arrive validated as http(s) URLs): the
text after the first "://" up to the next slash, question mark or hash;
empty when the URL has no "://". -/
def netloc (url : String) : String :=
  match splitAtFirst schemeSep url.data with
  | none => ""
  | some (_, rest) =>
    String.mk (rest.takeWhile (fun c => !(c == '/') && !(c == '?') && !(c == '#')))

/-- Check if URL is from kenyalaw.org domain (main.py lines 90-93): the
lowercased network-location component contains "kenyalaw.org" as a
substring. -/
def is_kenya_law_url (url : String) : Bool :=
  strContains (strLower (netloc url)) "kenyalaw.org"

/-- Decompose an absolute http(s) URL into scheme, host and path characters;
none when the URL carries no "://". -/
def splitUrlData (url : String) : Option (List Char × List Char × List Char) :=
  match splitAtFirst schemeSep url.data with
  | none => none
  | some (scheme, rest) =>
    let host := rest.takeWhile (fun c => !(c == '/'))
    some (scheme, host, rest.drop host.length)

/-- The suffix of a reversed path starting at the first slash found, i.e. the
reversed directory part of the path; none when the path has no slash. -/
def dirCharsRev : List Char → Option (List Char)
  | [] => none
  | c :: rest => if c == '/' then some (c :: rest) else dirCharsRev rest

/-- The directory part of a path: everything up to and including the final
slash, or a single slash when the path has none. -/
def dirChars (path : List Char) : List Char :=
  match dirCharsRev path.reverse with
  | none => ['/']
  | some r => r.reverse

/-- Model of urllib.parse.urljoin for the URL shapes this service meets: an
empty href yields the base, an absolute href wins outright, a
root-relative href replaces the whole path of the base, and any other
href replaces the final path segment of the base. -/
def urljoin (base href : String) : String :=
  if href == "" then base
  else if strContains href "://" then href
  else
    match splitUrlData base with
    | none => href
    | some (scheme, host, path) =>
      if strStartsWith href "/" then
        String.mk (scheme ++ schemeSep ++ host ++ href.data)
      else
        String.mk (scheme ++ schemeSep ++ host ++ dirChars path ++ href.data)

/-- A hyperlink entry returned by the Scrape Provider in links mode: the code
accepts either a bare string or a structured object exposing an optional
href field (main.py lines 103-107). -/
inductive LinkEntry where
  | raw (s : String)
  | obj (href : Option String)
deriving DecidableEq

/-- The document object returned by the Scrape Provider in markdown mode:
optional content and title attributes, plus the string rendering used as a
fallback when the content attribute is absent (main.py lines 210-211). -/
structure FireDoc where
  content? : Option String
  reprStr : String
  title? : Option String
deriving DecidableEq

/-- Result of one Scrape Provider call in links mode: either the call raised,
or it returned an object that may or may not expose a links attribute
(main.py lines 99-100). -/
inductive LinksOutcome where
  | exn
  | ok (links? : Option (List LinkEntry))
deriving DecidableEq

/-- Result of one Scrape Provider call in markdown mode: either the call
raised, or it produced a document object (main.py lines 203-211). -/
inductive FetchOutcome where
  | exn
  | ok (doc : FireDoc)
deriving DecidableEq

/-- The external Scrape Provider, modelled as an oracle giving the outcome of
each call the service can make. -/
structure Provider where
  linksMode : String → LinksOutcome
  markdownMode : String → FetchOutcome

/-- Observable record of one invocation of the Scrape Provider. -/
inductive ProviderCall where
  | links (url : String)
  | markdown (url : String)
deriving DecidableEq

/-- Href extraction for one link entry (main.py lines 104-107): a bare string
is its own href; an object contributes its href field, an absent field
gives none. -/
def hrefOf : LinkEntry → Option String
  | .raw s => some s
  | .obj h => h

/-- The accumulation loop of get_start_urls (main.py lines 102-115): walks the
link list, skips entries whose href is falsy (absent or empty), resolves
the rest against the base URL, keeps resolved URLs that start with the
base URL, and breaks as soon as the accumulator has reached the limit. -/
def collectInternal (base : String) (limit : Nat) (acc : List String) :
    List LinkEntry → List String
  | [] => acc
  | l :: rest =>
    match hrefOf l with
    | none => collectInternal base limit acc rest
    | some href =>
      if href == "" then collectInternal base limit acc rest
      else
        let absUrl := urljoin base href
        let acc' := if strStartsWith absUrl base then acc ++ [absUrl] else acc
        if limit ≤ acc'.length then acc' else collectInternal base limit acc' rest

/-- Get internal links from the base URL (main.py lines 95-121): asks the
Scrape Provider for the links of the base page, filters them down to
same-prefix internal links bounded by the limit, and degrades to the
single-element list holding the base URL when the provider call raises. -/
def get_start_urls (p : Provider) (base_url : String) (limit : Nat) : List String :=
  match p.linksMode base_url with
  | .exn => [base_url]
  | .ok links? =>
    (collectInternal base_url limit [] (links?.getD [])).take limit

/-- The same-prefix internal links of a link list, in provider order, without
the early exit of the loop: hrefs that are present and non-empty, resolved
against the base URL, kept when they start with the base URL. The loop is
proved equal to take limit of this list. -/
def internalLinks (base : String) : List LinkEntry → List String
  | [] => []
  | l :: rest =>
    match hrefOf l with
    | none => internalLinks base rest
    | some href =>
      if href == "" then internalLinks base rest
      else
        let absUrl := urljoin base href
        if strStartsWith absUrl base then absUrl :: internalLinks base rest
        else internalLinks base rest

/-- Spec-side reading of link discovery: every returned link entry, bare
string or href-carrying object, is resolved against the seed and kept
exactly when the seed is a literal prefix of its string form, in provider
order, up to the limit. It differs from the code only in that it does not
discard empty hrefs before resolving them. -/
def discoverSpec (base : String) (limit : Nat) (links : List LinkEntry) : List String :=
  ((((links.filterMap hrefOf).map (urljoin base)).filter
    (fun u => strStartsWith u base)).take limit)

/-- An HTTP response from the Completion Provider: status code, raw body text,
and the text found along candidates[0].content.parts[0].text when the body
parses and carries that path; none models a malformed body, whose
extraction raises inside the try block (main.py lines 146-148). -/
structure LlmHttpResponse where
  status : Nat
  text : String
  extract? : Option String
deriving DecidableEq

/-- Outcome of the HTTP POST to the Completion Provider: the transport either
raises (connection error, timeout) or delivers a response. -/
inductive LlmOutcome where
  | raised
  | resp (r : LlmHttpResponse)
deriving DecidableEq

/-- The fixed apology string returned when the Completion Provider call ends
in an exception (main.py line 155). -/
def geminiApology : String :=
  "Sorry, I\x27m having trouble connecting to Gemini. Please try again."

/-- Call Gemini API directly via HTTP (main.py lines 124-155): with no API key
configured, a fixed error string; on a 200 response the extracted
candidate text, falling back to the apology when extraction raises; on any
other status an error string carrying the body text or the status code;
when the call itself raises, the apology. Total: every branch returns a
string, no exception escapes. -/
def call_llm (apiKeyConfigured : Bool) (outcome : LlmOutcome) : String :=
  if !apiKeyConfigured then "Error: Gemini API key not configured"
  else
    match outcome with
    | .raised => geminiApology
    | .resp r =>
      if r.status == 200 then
        match r.extract? with
        | some t => t
        | none => geminiApology
      else
        "Error: Gemini API returned " ++
          (if r.text == "" then "Status " ++ toString r.status else r.text)

/-- The exclusion filter (main.py lines 189-194): the compiled alternation of
patterns matches a URL exactly when it ends in one of the four binary
asset extensions or contains an /admin/ or /login/ path component. -/
def isExcluded (url : String) : Bool :=
  strEndsWith url ".pdf" || strEndsWith url ".jpg" || strEndsWith url ".png" ||
    strEndsWith url ".gif" || strContains url "/admin/" || strContains url "/login/"

/-- One scraped page (main.py lines 59-63). -/
structure ScrapeResult where
  url : String
  content : String
  title? : Option String
  content_length : Nat
deriving DecidableEq

/-- Body of POST /scrape (main.py lines 54-57); the url field arrives already
validated as an http(s) URL by the request model. -/
structure ScrapeRequest where
  url : String
  limit : Nat
  scrape_links : Bool
deriving DecidableEq

/-- Body of the POST /scrape response (main.py lines 65-71), minus the
wall-clock duration field, which has no place in a functional model. -/
structure ScrapeResponse where
  success : Bool
  message : String
  total_pages : Nat
  results : List ScrapeResult
  document_id : Option String
deriving DecidableEq

/-- One iteration body of the crawl loop (main.py lines 203-218): a markdown
scrape that raises yields no result; otherwise the content falls back from
the content attribute to the string rendering of the document, and the
result records the character count of that content. -/
def crawlStep (p : Provider) (url : String) : Option ScrapeResult :=
  match p.markdownMode url with
  | .exn => none
  | .ok doc =>
    let content := doc.content?.getD doc.reprStr
    some { url := url, content := content, title? := doc.title?,
           content_length := content.length }

/-- The crawl runner (main.py lines 196-225): walks the URL list in order,
skips excluded URLs without contacting the provider, scrapes the rest in
markdown mode, tolerating per-page failures. Returns the accumulated
results together with the URLs for which the provider was actually
invoked, in call order. -/
def crawl (p : Provider) : List String → List ScrapeResult × List String
  | [] => ([], [])
  | url :: rest =>
    if isExcluded url then crawl p rest
    else
      match crawlStep p url with
      | none => ((crawl p rest).1, url :: (crawl p rest).2)
      | some r => (r :: (crawl p rest).1, url :: (crawl p rest).2)

/-- One entry of the in-memory document cache (main.py lines 231-236), minus
the scraped_at wall-clock timestamp. The stored title is the possibly
absent title of the first result, or the string "Unknown" when no page was
scraped. -/
structure CachedDoc where
  content : List String
  urls : List String
  title? : Option String
deriving DecidableEq

/-- The process-wide scraped_documents dictionary, modelled as an association
list where insertion prepends, so that lookup finds the most recent
binding, matching dictionary overwrite semantics. -/
abbrev Cache := List (String × CachedDoc)

/-- Dictionary lookup in the document cache. -/
def cacheLookup (cache : Cache) (key : String) : Option CachedDoc :=
  (cache.find? (fun kv => kv.fst == key)).map (fun kv => kv.snd)

/-- Outcome of the POST /scrape handler: an HTTPException carrying status 400,
or a 200 response. The 500 branch of the handler (main.py lines 247-248)
is unreachable in this model because every failure of the two provider
calls is already caught further down. -/
inductive ScrapeOutcome where
  | badRequest (detail : String)
  | ok (resp : ScrapeResponse)
deriving DecidableEq

/-- The crawl set of a request (main.py lines 183-187): the discovered links
when scrape_links is set, falling back to the base URL alone when
discovery comes back empty, and just the base URL otherwise. -/
def urlsToScrape (p : Provider) (request : ScrapeRequest) : List String :=
  if request.scrape_links then
    match get_start_urls p request.url request.limit with
    | [] => [request.url]
    | us => us
  else [request.url]

/-- The POST /scrape handler (main.py lines 163-248), with the current integer
wall-clock second passed in as now. Returns the HTTP outcome, the updated
document cache, and the ordered list of Scrape Provider invocations made
while handling the request. -/
def scrape_kenya_law (p : Provider) (now : Nat) (cache : Cache)
    (request : ScrapeRequest) : ScrapeOutcome × Cache × List ProviderCall :=
  if !is_kenya_law_url request.url then
    (.badRequest "URL must be from kenyalaw.org domain", cache, [])
  else
    let base_url := request.url
    let crawled := crawl p (urlsToScrape p request)
    let results := crawled.1
    let doc_id := "doc_" ++ toString now
    let stored : CachedDoc :=
      { content := results.map (fun r => r.content)
        urls := results.map (fun r => r.url)
        title? :=
          match results with
          | [] => some "Unknown"
          | r :: _ => r.title? }
    let calls :=
      (if request.scrape_links then [ProviderCall.links base_url] else [])
        ++ crawled.2.map ProviderCall.markdown
    (.ok { success := true
           message := "Successfully scraped " ++ toString results.length ++ " pages"
           total_pages := results.length
           results := results
           document_id := some doc_id },
     (doc_id, stored) :: cache, calls)

/-- Body of POST /chat (main.py lines 77-80). -/
structure ChatRequest where
  message : String
  document_id : Option String
  context : Option String
deriving DecidableEq

/-- Body of the POST /chat response (main.py lines 82-85); the confidence
field is never populated by the handler. -/
structure ChatResponse where
  response : String
  document_references : List String
  confidence : Option Float

/-- Python truthiness of an optional string: None and the empty string are
falsy, every other string is truthy. -/
def pyTruthy : Option String → Bool
  | none => false
  | some s => !(s == "")

/-- Python "\n\n".join(strs), the blank-line concatenation of the cached
content strings (main.py line 256). -/
def joinBlank : List String → String
  | [] => ""
  | [s] => s
  | s :: rest => s ++ "\n\n" ++ joinBlank rest

/-- The truncation applied to the combined document content before it is
embedded in the prompt (main.py line 262): the first 6000 characters. -/
def truncate6000 (s : String) : String := String.mk (s.data.take 6000)

/-- The fixed instruction text preceding the document content in the chat
prompt (main.py lines 259-261). -/
def promptHead : String :=
  "You are a helpful legal AI assistant specializing in Kenya Law. " ++
    "You are analyzing legal documents from the Kenya Law website.\n\n" ++
    "**DOCUMENT CONTENT:**\n"

/-- The fixed instruction text between the document content and the user
question in the chat prompt (main.py lines 264-272). -/
def promptMid : String :=
  "\n\n**INSTRUCTIONS:**\n" ++
    "- Answer based ONLY on the provided document content\n" ++
    "- If information isn\x27t available in the document, clearly state: " ++
    "\"This information is not available in the provided document\"\n" ++
    "- For legal terms, provide brief explanations when helpful\n" ++
    "- Be precise and cite specific sections or paragraphs when possible\n" ++
    "- Use clear, professional language\n" ++
    "- If asked for legal advice, remind that this is for informational purposes only\n\n" ++
    "**USER QUESTION:** "

/-- The fixed text closing the chat prompt (main.py line 274). -/
def promptTail : String := "\n\n**RESPONSE:**"

/-- The prompt assembled by the chat handler (main.py lines 256-274): cached
content strings joined with a blank line, truncated to 6000 characters,
and embedded with the user question into the fixed instruction template. -/
def chatPrompt (doc : CachedDoc) (message : String) : String :=
  promptHead ++ truncate6000 (joinBlank doc.content) ++ promptMid ++ message ++ promptTail

/-- Outcome of the POST /chat handler: an HTTPException carrying status 404,
or a 200 response; the ok case also records the prompt that was sent to
the Completion Provider. -/
inductive ChatOutcome where
  | notFound
  | ok (resp : ChatResponse) (promptSent : String)

/-- The POST /chat handler (main.py lines 250-281), parameterised by the
Completion Provider call: a missing, empty or unknown document_id yields
404; otherwise the handler builds the truncated prompt, forwards it, and
answers with the generated text and the cached source URLs. -/
def chat_with_document (llm : String → String) (cache : Cache)
    (request : ChatRequest) : ChatOutcome :=
  if pyTruthy request.document_id = false then .notFound
  else
    match request.document_id.bind (fun d => cacheLookup cache d) with
    | none => .notFound
    | some doc =>
      let prompt := chatPrompt doc request.message
      .ok { response := llm prompt
            document_references := doc.urls
            confidence := none } prompt

/-- The amended reading of link discovery: like discoverSpec, except that, as
the code does, entries whose href is absent or empty are dropped before
resolution. -/
def discoverAmended (base : String) (limit : Nat) (links : List LinkEntry) : List String :=
  ((((links.filterMap fun l => (hrefOf l).bind fun h => if h == "" then none else some h).map
      (urljoin base)).filter fun u => strStartsWith u base).take limit)

/-- The link list of the specification scenario for link discovery. -/
def demoLinks : List LinkEntry :=
  [.raw "/docs/act1/part1", .raw "https://other.org/x",
   .raw "/docs/act1/part2", .raw "/docs/act1/part3"]

/-- A Scrape Provider whose links mode returns the scenario links and whose
markdown mode always raises. -/
def demoProvider : Provider :=
  ⟨fun _ => .ok (some demoLinks), fun _ => .exn⟩

/-- A Scrape Provider both of whose modes raise. -/
def failingProvider : Provider :=
  ⟨fun _ => .exn, fun _ => .exn⟩

/-- A Scrape Provider whose links call raises and whose markdown call returns
a fixed page. -/
def pageProvider : Provider :=
  ⟨fun _ => .exn, fun _ => .ok ⟨some "Body", "obj", some "Title"⟩⟩

/-- A Scrape Provider whose links call returns a single bare empty-string
link and whose markdown mode raises. -/
def emptyHrefProvider : Provider :=
  ⟨fun _ => .ok (some [.raw ""]), fun _ => .exn⟩

theorem take_append_of_le {α : Type} (xs ys : List α) (n : Nat) (h : n ≤ xs.length) :
    (xs ++ ys).take n = xs.take n := by
  rw [List.take_append_eq_append_take, Nat.sub_eq_zero_of_le h]
  simp

theorem internalLinks_eq (base : String) (links : List LinkEntry) :
    internalLinks base links
      = ((links.filterMap fun l => (hrefOf l).bind fun h => if h == "" then none else some h).map
          (urljoin base)).filter fun u => strStartsWith u base := by
  induction links with
  | nil => rfl
  | cons l rest ih =>
    cases h : hrefOf l with
    | none => simp [internalLinks, h, ih]
    | some href =>
      by_cases he : href = ""
      · simp [internalLinks, h, he, ih]
      · cases hs : strStartsWith (urljoin base href) base with
        | true => simp [internalLinks, h, he, hs, ih]
        | false => simp [internalLinks, h, he, hs, ih]

theorem collectInternal_take (base : String) (limit : Nat) (links : List LinkEntry) :
    ∀ acc : List String,
      (collectInternal base limit acc links).take limit
        = (acc ++ internalLinks base links).take limit := by
  induction links with
  | nil => intro acc; simp [collectInternal, internalLinks]
  | cons l rest ih =>
    intro acc
    cases h : hrefOf l with
    | none => simpa [collectInternal, internalLinks, h] using ih acc
    | some href =>
      by_cases he : href = ""
      · simpa [collectInternal, internalLinks, h, he] using ih acc
      · cases hs : strStartsWith (urljoin base href) base with
        | true =>
          have hint : internalLinks base (l :: rest)
              = urljoin base href :: internalLinks base rest := by
            simp [internalLinks, h, he, hs]
          have hsplit : acc ++ urljoin base href :: internalLinks base rest
              = (acc ++ [urljoin base href]) ++ internalLinks base rest := by simp
          by_cases hl : limit ≤ (acc ++ [urljoin base href]).length
          · have hstep : collectInternal base limit acc (l :: rest)
                = acc ++ [urljoin base href] := by
              simp only [List.length_append, List.length_cons, List.length_nil] at hl
              simp [collectInternal, h, he, hs]
              intro hx
              exfalso
              omega
            rw [hstep, hint, hsplit, take_append_of_le _ _ _ hl]
          · have hstep : collectInternal base limit acc (l :: rest)
                = collectInternal base limit (acc ++ [urljoin base href]) rest := by
              simp only [List.length_append, List.length_cons, List.length_nil] at hl
              simp [collectInternal, h, he, hs]
              intro hx
              exfalso
              omega
            rw [hstep, hint, ih (acc ++ [urljoin base href]), hsplit]
        | false =>
          have hint : internalLinks base (l :: rest) = internalLinks base rest := by
            simp [internalLinks, h, he, hs]
          by_cases hl : limit ≤ acc.length
          · have hstep : collectInternal base limit acc (l :: rest) = acc := by
              simp [collectInternal, h, he, hs, hl]
            rw [hstep, hint, take_append_of_le _ _ _ hl]
          · have hstep : collectInternal base limit acc (l :: rest)
                = collectInternal base limit acc rest := by
              simp [collectInternal, h, he, hs, hl]
            rw [hstep, hint, ih acc]

theorem get_start_urls_eq_internal (p : Provider) (base : String) (limit : Nat)
    (links? : Option (List LinkEntry)) (h : p.linksMode base = .ok links?) :
    get_start_urls p base limit = (internalLinks base (links?.getD [])).take limit := by
  simp only [get_start_urls, h]
  simpa using collectInternal_take base limit (links?.getD []) []

/-- C3: whenever the Scrape Provider call made by link discovery raises,
get_start_urls returns exactly the one-element list holding the seed URL;
being a total Lean function, it propagates no exception. -/
theorem get_start_urls_degrades_on_raise (p : Provider) (base : String) (limit : Nat)
    (h : p.linksMode base = .exn) :
    get_start_urls p base limit = [base] := by
  simp [get_start_urls, h]

theorem get_start_urls_degrades_on_raise_witness :
    get_start_urls failingProvider "https://kenyalaw.org/docs/act1" 10
      = ["https://kenyalaw.org/docs/act1"] :=
  get_start_urls_degrades_on_raise failingProvider "https://kenyalaw.org/docs/act1" 10 rfl

/-- C4 counterexample: a provider link that is a bare empty string resolves
to the seed URL itself, whose string form has the seed URL as a literal
prefix, so the claimed discovery (discoverSpec) keeps it; the code drops
falsy hrefs before resolving and returns the empty list instead. -/
theorem get_start_urls_empty_href_cex :
    get_start_urls emptyHrefProvider "https://kenyalaw.org/docs/act1" 1 = [] ∧
    discoverSpec "https://kenyalaw.org/docs/act1" 1 [.raw ""]
      = ["https://kenyalaw.org/docs/act1"] ∧
    ([] : List String) ≠ ["https://kenyalaw.org/docs/act1"] :=
  ⟨by decide, by decide, by decide⟩

/-- C4 (amended): link discovery resolves each returned link carrying a
non-empty href (bare non-empty string, or object with a non-empty href)
against the seed URL, keeps exactly those whose string form has the seed
URL as a literal prefix, preserves provider order, and stops once the
limit is reached; on the specification scenario it returns exactly the
two in-domain links. -/
theorem get_start_urls_characterised (p : Provider) (base : String) (limit : Nat)
    (links : List LinkEntry) (h : p.linksMode base = .ok (some links)) :
    get_start_urls p base limit = discoverAmended base limit links ∧
    get_start_urls demoProvider "https://kenyalaw.org/docs/act1" 2
      = ["https://kenyalaw.org/docs/act1/part1", "https://kenyalaw.org/docs/act1/part2"] := by
  constructor
  · rw [get_start_urls_eq_internal p base limit (some links) h]
    simp [discoverAmended, internalLinks_eq]
  · decide

theorem get_start_urls_characterised_witness :
    get_start_urls demoProvider "https://kenyalaw.org/docs/act1" 2
      = discoverAmended "https://kenyalaw.org/docs/act1" 2 demoLinks ∧
    get_start_urls demoProvider "https://kenyalaw.org/docs/act1" 2
      = ["https://kenyalaw.org/docs/act1/part1", "https://kenyalaw.org/docs/act1/part2"] :=
  get_start_urls_characterised demoProvider "https://kenyalaw.org/docs/act1" 2 demoLinks rfl

/-- C1: a scrape request whose URL fails the kenyalaw.org domain check is
answered with the fixed 400 message, the cache is untouched, and the
Scrape Provider is never invoked in either mode: the call list is empty. -/
theorem scrape_rejects_foreign_domain (p : Provider) (now : Nat) (cache : Cache)
    (request : ScrapeRequest) (h : is_kenya_law_url request.url = false) :
    scrape_kenya_law p now cache request
      = (.badRequest "URL must be from kenyalaw.org domain", cache, []) := by
  simp [scrape_kenya_law, h]

theorem scrape_rejects_foreign_domain_witness :
    is_kenya_law_url "https://example.com/a" = false ∧
    scrape_kenya_law failingProvider 0 [] ⟨"https://example.com/a", 10, true⟩
      = (.badRequest "URL must be from kenyalaw.org domain", [], []) :=
  ⟨by decide, scrape_rejects_foreign_domain failingProvider 0 [] _ (by decide)⟩

/-- C2 counterexample: on a non-success HTTP status the code does not return
the fixed apology string but an error string that embeds the body text of
the provider response, so the returned string is neither fixed nor the
apology. -/
theorem call_llm_bad_status_cex :
    call_llm true (.resp ⟨500, "boom", none⟩) = "Error: Gemini API returned boom" ∧
    "Error: Gemini API returned boom" ≠ geminiApology :=
  ⟨by decide, by decide⟩

/-- C2 (amended): call_llm never propagates an exception (it is a total
function into strings); a transport error or a malformed 200 body yields
the fixed apology string, while a non-success status yields an error
string reporting the body text or the status code. -/
theorem call_llm_error_handling (r : LlmHttpResponse) :
    call_llm true .raised = geminiApology ∧
    (r.status = 200 → r.extract? = none → call_llm true (.resp r) = geminiApology) ∧
    (r.status ≠ 200 → call_llm true (.resp r)
        = "Error: Gemini API returned "
            ++ (if r.text == "" then "Status " ++ toString r.status else r.text)) := by
  refine ⟨rfl, ?_, ?_⟩
  · intro h1 h2
    have hb : (r.status == 200) = true := by simp [h1]
    simp [call_llm, hb, h2]
  · intro h1
    have hb : (r.status == 200) = false := by simp [h1]
    simp [call_llm, hb]

theorem call_llm_error_handling_witness :
    call_llm true (.resp ⟨200, "weird", none⟩) = geminiApology ∧
    call_llm true (.resp ⟨404, "", none⟩) = "Error: Gemini API returned Status 404" := by
  constructor
  · exact (call_llm_error_handling ⟨200, "weird", none⟩).2.1 rfl rfl
  · rw [(call_llm_error_handling ⟨404, "", none⟩).2.2 (by decide)]
    decide

theorem crawlStep_sound (p : Provider) (url : String) (r : ScrapeResult)
    (h : crawlStep p url = some r) :
    r.content_length = r.content.length ∧ r.url = url := by
  cases hmd : p.markdownMode url with
  | exn => simp [crawlStep, hmd] at h
  | ok doc =>
    simp only [crawlStep, hmd, Option.some.injEq] at h
    subst h
    exact ⟨rfl, rfl⟩

theorem crawl_sound (p : Provider) (urls : List String) :
    (∀ u ∈ (crawl p urls).2, isExcluded u = false) ∧
    (∀ r ∈ (crawl p urls).1,
      isExcluded r.url = false ∧ r.content_length = r.content.length) := by
  induction urls with
  | nil => simp [crawl]
  | cons u rest ih =>
    cases hx : isExcluded u with
    | true => simpa [crawl, hx] using ih
    | false =>
      cases hs : crawlStep p u with
      | none =>
        refine ⟨?_, ?_⟩
        · intro v hv
          simp only [crawl, hx, Bool.false_eq_true, if_false, hs, List.mem_cons] at hv
          rcases hv with h | h
          · subst h; exact hx
          · exact ih.1 v h
        · intro r hr
          simp only [crawl, hx, Bool.false_eq_true, if_false, hs] at hr
          exact ih.2 r hr
      | some r0 =>
        obtain ⟨hlen, hurl⟩ := crawlStep_sound p u r0 hs
        refine ⟨?_, ?_⟩
        · intro v hv
          simp only [crawl, hx, Bool.false_eq_true, if_false, hs, List.mem_cons] at hv
          rcases hv with h | h
          · subst h; exact hx
          · exact ih.1 v h
        · intro r hr
          simp only [crawl, hx, Bool.false_eq_true, if_false, hs, List.mem_cons] at hr
          rcases hr with h | h
          · subst h; exact ⟨hurl ▸ hx, hlen⟩
          · exact ih.2 r h

/-- C8: a URL of the crawl set that the exclusion filter matches is never
passed to the Scrape Provider (it is absent from the list of markdown-mode
invocations) and contributes no Scrape Result. -/
theorem crawl_never_scrapes_excluded (p : Provider) (urls : List String) (url : String)
    (hmem : url ∈ urls) (hex : isExcluded url = true) :
    url ∉ (crawl p urls).2 ∧ ∀ r ∈ (crawl p urls).1, r.url ≠ url := by
  refine ⟨fun hc => ?_, fun r hr hrurl => ?_⟩
  · have h := (crawl_sound p urls).1 url hc
    rw [hex] at h
    exact absurd h (by decide)
  · have h := ((crawl_sound p urls).2 r hr).1
    rw [hrurl, hex] at h
    exact absurd h (by decide)

theorem crawl_never_scrapes_excluded_witness :
    "https://kenyalaw.org/admin/x" ∈
        ["https://kenyalaw.org/docs/a", "https://kenyalaw.org/admin/x"] ∧
    ("https://kenyalaw.org/admin/x" ∉
        (crawl failingProvider
          ["https://kenyalaw.org/docs/a", "https://kenyalaw.org/admin/x"]).2 ∧
      ∀ r ∈ (crawl failingProvider
          ["https://kenyalaw.org/docs/a", "https://kenyalaw.org/admin/x"]).1,
        r.url ≠ "https://kenyalaw.org/admin/x") :=
  ⟨by decide,
   crawl_never_scrapes_excluded failingProvider _ _ (by decide) (by decide)⟩

/-- C7: every 200 response of the scrape handler reports total_pages equal to
the number of results, and every result carries content_length equal to
the character count of its content. -/
theorem scrape_response_invariants (p : Provider) (now : Nat) (cache : Cache)
    (request : ScrapeRequest) (resp : ScrapeResponse)
    (h : (scrape_kenya_law p now cache request).1 = .ok resp) :
    resp.total_pages = resp.results.length ∧
    ∀ r ∈ resp.results, r.content_length = r.content.length := by
  cases hk : is_kenya_law_url request.url with
  | false => simp [scrape_kenya_law, hk] at h
  | true =>
    simp only [scrape_kenya_law, hk, Bool.not_true, Bool.false_eq_true, if_false,
      ScrapeOutcome.ok.injEq] at h
    subst h
    refine ⟨rfl, fun r hr => ?_⟩
    exact ((crawl_sound p (urlsToScrape p request)).2 r hr).2

theorem scrape_response_invariants_witness :
    (1 : Nat) = ([⟨"https://kenyalaw.org/docs", "Body", some "Title", 4⟩] :
        List ScrapeResult).length ∧
    ∀ r ∈ ([⟨"https://kenyalaw.org/docs", "Body", some "Title", 4⟩] : List ScrapeResult),
      r.content_length = r.content.length :=
  scrape_response_invariants pageProvider 0 [] ⟨"https://kenyalaw.org/docs", 10, false⟩
    ⟨true, "Successfully scraped 1 pages", 1,
      [⟨"https://kenyalaw.org/docs", "Body", some "Title", 4⟩], some "doc_0"⟩
    (by decide)

theorem truncate6000_of_le (s : String) (h : s.length ≤ 6000) : truncate6000 s = s := by
  cases s with
  | mk data =>
    have hd : data.length ≤ 6000 := h
    simp only [truncate6000]
    exact congrArg String.mk (List.take_of_length_le hd)

/-- C5: for every chat request resolved against a cached document, the prompt
sent to the Completion Provider embeds exactly the first 6000 characters
of the cached content strings joined with a blank-line separator, and that
truncation leaves any joined content of at most 6000 characters
unchanged. -/
theorem chat_embeds_truncated_content (llm : String → String) (cache : Cache)
    (request : ChatRequest) (doc : CachedDoc)
    (h1 : pyTruthy request.document_id = true)
    (h2 : request.document_id.bind (fun d => cacheLookup cache d) = some doc) :
    chat_with_document llm cache request
        = .ok ⟨llm (chatPrompt doc request.message), doc.urls, none⟩
            (promptHead ++ truncate6000 (joinBlank doc.content)
              ++ promptMid ++ request.message ++ promptTail) ∧
    ∀ s : String, s.length ≤ 6000 → truncate6000 s = s := by
  refine ⟨?_, fun s hs => truncate6000_of_le s hs⟩
  simp [chat_with_document, h1, h2, chatPrompt]

theorem chat_embeds_truncated_content_witness :
    chat_with_document (fun _ => "answer")
        [("doc_1", ⟨["Section 1 text"], ["https://kenyalaw.org/docs/act1"], some "Act 1"⟩)]
        ⟨"What does section 1 say", some "doc_1", none⟩
      = .ok ⟨"answer", ["https://kenyalaw.org/docs/act1"], none⟩
          (promptHead ++ truncate6000 (joinBlank ["Section 1 text"])
            ++ promptMid ++ "What does section 1 say" ++ promptTail) ∧
    ∀ s : String, s.length ≤ 6000 → truncate6000 s = s :=
  chat_embeds_truncated_content (fun _ => "answer")
    [("doc_1", ⟨["Section 1 text"], ["https://kenyalaw.org/docs/act1"], some "Act 1"⟩)]
    ⟨"What does section 1 say", some "doc_1", none⟩
    ⟨["Section 1 text"], ["https://kenyalaw.org/docs/act1"], some "Act 1"⟩
    (by decide) (by decide)

/-- C6: the chat handler returns 404 exactly when the document_id is missing,
empty, or not a key of the document cache — regardless of the message
content — and otherwise returns a 200 Chat Response. -/
theorem chat_not_found_iff (llm : String → String) (cache : Cache) (request : ChatRequest) :
    (chat_with_document llm cache request = .notFound ↔
      (request.document_id = none ∨ request.document_id = some "" ∨
        request.document_id.bind (fun d => cacheLookup cache d) = none)) ∧
    (chat_with_document llm cache request = .notFound ∨
      ∃ resp promptSent, chat_with_document llm cache request = .ok resp promptSent) := by
  constructor
  · cases hid : request.document_id with
    | none => simp [chat_with_document, pyTruthy, hid]
    | some d =>
      by_cases hd : d = ""
      · subst hd
        simp [chat_with_document, pyTruthy, hid]
      · cases hl : cacheLookup cache d with
        | none => simp [chat_with_document, pyTruthy, hid, hd, hl]
        | some doc => simp [chat_with_document, pyTruthy, hid, hd, hl]
  · cases hout : chat_with_document llm cache request with
    | notFound => exact Or.inl rfl
    | ok resp promptSent => exact Or.inr ⟨resp, promptSent, rfl⟩

/-- C9 counterexample: a run that scrapes zero pages stores the sentinel title
"Unknown", with a capital U, not the claimed sentinel "unknown". -/
theorem scrape_unknown_title_cex :
    (cacheLookup (scrape_kenya_law failingProvider 7 []
        ⟨"https://kenyalaw.org/a.pdf", 10, false⟩).2.1 "doc_7").map (fun d => d.title?)
      = some (some "Unknown") ∧
    ("Unknown" : String) ≠ "unknown" :=
  ⟨by decide, by decide⟩

/-- C9 (amended): every /scrape run that passes domain validation (in this
model no run raises an unhandled exception) stores one cached document
holding the scraped results' contents and URLs in crawl order, titled by
the first result's title when a result exists and by the sentinel
"Unknown" when the result list is empty, and returns success together
with that document's identifier — even when zero pages were scraped. -/
theorem scrape_stores_document (p : Provider) (now : Nat) (cache : Cache)
    (request : ScrapeRequest) (h : is_kenya_law_url request.url = true) :
    ∃ results calls,
      scrape_kenya_law p now cache request
        = (.ok { success := true,
                 message := "Successfully scraped " ++ toString results.length ++ " pages",
                 total_pages := results.length,
                 results := results,
                 document_id := some ("doc_" ++ toString now) },
           ("doc_" ++ toString now,
            { content := results.map (fun r => r.content),
              urls := results.map (fun r => r.url),
              title? := match results with
                | [] => some "Unknown"
                | r :: _ => r.title? }) :: cache,
           calls) := by
  refine ⟨(crawl p (urlsToScrape p request)).1,
    (if request.scrape_links then [ProviderCall.links request.url] else [])
      ++ (crawl p (urlsToScrape p request)).2.map ProviderCall.markdown, ?_⟩
  simp [scrape_kenya_law, h]

theorem scrape_stores_document_witness :
    ∃ results calls,
      scrape_kenya_law failingProvider 7 [] ⟨"https://kenyalaw.org/a.pdf", 10, false⟩
        = (.ok { success := true,
                 message := "Successfully scraped " ++ toString results.length ++ " pages",
                 total_pages := results.length,
                 results := results,
                 document_id := some ("doc_" ++ toString 7) },
           ("doc_" ++ toString 7,
            { content := results.map (fun r => r.content),
              urls := results.map (fun r => r.url),
              title? := match results with
                | [] => some "Unknown"
                | r :: _ => r.title? }) :: [],
           calls) :=
  scrape_stores_document failingProvider 7 [] ⟨"https://kenyalaw.org/a.pdf", 10, false⟩
    (by decide)

/-- C10: the /scrape domain validation rejects with 400 exactly when the
lowercased network-location of the URL does not contain "kenyalaw.org"
as a substring; hosts that merely contain the domain, such as
kenyalaw.org.evil.com or notkenyalaw.org, pass validation and proceed to
the crawl — the Scrape Provider is invoked for them. -/
theorem scrape_domain_check_is_substring (p : Provider) (now : Nat) (cache : Cache)
    (request : ScrapeRequest) :
    ((scrape_kenya_law p now cache request).1
        = .badRequest "URL must be from kenyalaw.org domain"
      ↔ strContains (strLower (netloc request.url)) "kenyalaw.org" = false) ∧
    is_kenya_law_url "https://kenyalaw.org.evil.com/page" = true ∧
    is_kenya_law_url "https://notkenyalaw.org/" = true ∧
    (scrape_kenya_law failingProvider 0 []
        ⟨"https://kenyalaw.org.evil.com/page", 10, false⟩).2.2
      = [ProviderCall.markdown "https://kenyalaw.org.evil.com/page"] := by
  refine ⟨?_, by decide, by decide, by decide⟩
  cases hk : is_kenya_law_url request.url with
  | true =>
    have hk' : strContains (strLower (netloc request.url)) "kenyalaw.org" = true := hk
    simp [scrape_kenya_law, hk, hk']
  | false =>
    have hk' : strContains (strLower (netloc request.url)) "kenyalaw.org" = false := hk
    simp [scrape_kenya_law, hk, hk']

end KenyaLaw
